import Mathlib

/-!
Shallow embedding of the OIDC subject-token suppliers from
`airflow/providers/google/cloud/utils/external_token_supplier.py` and
`airflow/providers/google/common/utils/external_token.py`.

Python values drawn from a decoded JSON body are modelled by `JsonVal`;
Python exceptions that can escape the functions under study are modelled by
`PyErr`; the HTTP layer is modelled by `NetworkResult` (either a transport
level exception raised by the HTTP client itself, or a response carrying a
status code and a body that decoded to JSON or did not).  The monotonic
clock is modelled by explicit `Nat` readings passed to each call: the
wrapper in the source reads `time.monotonic()` twice (once in the validity
check, once when computing the new expiration time), so a call takes two
readings `now1` and `now2`.
-/

/-- Values of a decoded JSON object field.  `other` stands for any JSON
value that is neither a string nor a Python `int` (floats, lists, objects,
null, ...), which is all the `isinstance` checks in the source distinguish. -/
inductive JsonVal where
  | str (s : String)
  | int (n : Int)
  | other
deriving Repr, DecidableEq

/-- Python exception kinds that can escape the functions under study.
`refreshError` is `google.auth.exceptions.RefreshError`; the other
constructors are the `requests` exceptions and `KeyError`, which are
distinct exception types in Python. -/
inductive PyErr where
  | refreshError
  | transportError
  | httpError
  | jsonDecodeError
  | keyError (k : String)
deriving Repr, DecidableEq

/-- An HTTP response: a status code and either a JSON-decoded body
(an association list of fields) or `none` when the body is not valid JSON
(in which case `response.json()` raises `requests.JSONDecodeError`). -/
structure HttpResponse where
  status : Nat
  body : Option (List (String × JsonVal))
deriving Repr, DecidableEq

/-- Outcome of one `requests.post` round trip: either the HTTP client itself
raises a transport level exception (connection refused, timeout, ...), or a
response comes back. -/
inductive NetworkResult where
  | transportFailure
  | response (r : HttpResponse)
deriving Repr, DecidableEq

/-- `requests.Response.raise_for_status` raises `requests.HTTPError` exactly
when the status code is in [400, 600). -/
def isErrorStatus (status : Nat) : Bool :=
  400 ≤ status && status < 600

/-- The undecorated body of
`ClientCredentialsGrantFlowTokenSupplier.get_subject_token`, given the
outcome of its `requests.post` call.  A transport exception from
`requests.post` is not caught and propagates as such; `requests.HTTPError`
from `raise_for_status` and `requests.JSONDecodeError` from `response.json()`
are caught and re-raised as `RefreshError`; a body missing `access_token`
or `expires_in` raises `RefreshError`; otherwise the two fields are
returned unvalidated. -/
def get_subject_token_inner (net : NetworkResult) :
    Except PyErr (JsonVal × JsonVal) :=
  match net with
  | .transportFailure => .error .transportError
  | .response r =>
    if isErrorStatus r.status then .error .refreshError
    else
      match r.body with
      | none => .error .refreshError
      | some d =>
        match d.lookup "access_token", d.lookup "expires_in" with
        | some tok, some exp => .ok (tok, exp)
        | _, _ => .error .refreshError

/-- The pair of closure cells of `cache_token_decorator`: the variables
`token` (initially `None`) and `expiration_time` (initially `0`) captured by
the wrapper.  The decorator is applied once, when the class body is
evaluated, so one single pair of cells serves every instance of the
decorated class. -/
structure CacheState where
  token : Option JsonVal
  expiration_time : Int
deriving Repr, DecidableEq

/-- The closure state at class creation time: `token = None`,
`expiration_time = 0`. -/
def initialCacheState : CacheState :=
  { token := none, expiration_time := 0 }

deriving instance DecidableEq for Except

/-- What one call to the wrapper produces: the value returned or the
exception raised, the closure state after the call, and how many times the
wrapped fetch method was invoked during the call. -/
structure StepResult where
  result : Except PyErr JsonVal
  state : CacheState
  fetchCalls : Nat
deriving Repr, DecidableEq

/-- One call to the `wrapper` closure produced by `cache_token_decorator`,
given the outcome `fetchResult` that the wrapped `get_subject_token` method
would produce if invoked, and the two monotonic clock readings `now1` (taken
in the validity check) and `now2` (taken when computing the new expiration
time).  Faithful to the source:

* the fetch branch is entered iff `token is None or expiration_time <
  time.monotonic()`;
* inside it, the tuple assignment `token, expires_in = ...` overwrites the
  closure cell `token` before the `isinstance` validation runs, so a
  validation failure raises `RefreshError` with `token` already holding the
  unvalidated fetched value while `expiration_time` is left unchanged;
* an exception raised by the fetch itself propagates (after a log line when
  it is a `RefreshError`) with both cells unchanged;
* on success `expiration_time := now2 + expires_in` and the token is
  returned;
* outside the fetch branch the cached `token` cell is returned as is, with
  no fetch. -/
def wrapper (fetchResult : Except PyErr (JsonVal × JsonVal))
    (now1 now2 : Nat) (s : CacheState) : StepResult :=
  if s.token = none ∨ s.expiration_time < (now1 : Int) then
    match fetchResult with
    | .error e => { result := .error e, state := s, fetchCalls := 1 }
    | .ok (tok, exp) =>
      match tok, exp with
      | .str t, .int n =>
        { result := .ok (.str t)
          state := { token := some (.str t), expiration_time := (now2 : Int) + n }
          fetchCalls := 1 }
      | _, _ =>
        { result := .error .refreshError
          state := { token := some tok, expiration_time := s.expiration_time }
          fetchCalls := 1 }
  else
    { result := .ok (s.token.getD .other), state := s, fetchCalls := 0 }

/-- The configuration of one `ClientCredentialsGrantFlowTokenSupplier`
instance, as set by its `__init__`. -/
structure ClientCredentialsGrantFlowTokenSupplier where
  oidc_issuer_url : String
  client_id : String
  client_secret : String
  extra_params_kwargs : List (String × String)
deriving Repr, DecidableEq

/-- The entry sequence of the Python dict literal passed as `data=` to
`requests.post`: the three fixed grant fields first, then the splatted
`extra_params_kwargs`.  Python dict construction lets a later entry with the
same key overwrite an earlier one, which `dictGet` models below. -/
def postBodyEntries (sup : ClientCredentialsGrantFlowTokenSupplier) :
    List (String × String) :=
  [("grant_type", "client_credentials"),
   ("client_id", sup.client_id),
   ("client_secret", sup.client_secret)] ++ sup.extra_params_kwargs

/-- Lookup in a Python dict built from an entry sequence: the value of the
last entry carrying the key, or `none` when no entry carries it. -/
def dictGet (entries : List (String × String)) (k : String) : Option String :=
  (entries.reverse.find? (fun p => p.1 = k)).map Prod.snd

/-- One call to the decorated
`ClientCredentialsGrantFlowTokenSupplier.get_subject_token` on instance
`sup`: the wrapped method posts the form body to the instance issuer URL —
`env` gives the network outcome for a (url, body) pair — and the shared
closure state `s` is threaded through.  Because the decorator is applied at
class creation, calls on every instance of the class read and write the
same `CacheState`. -/
def get_subject_token (sup : ClientCredentialsGrantFlowTokenSupplier)
    (env : String → List (String × String) → NetworkResult)
    (now1 now2 : Nat) (s : CacheState) : StepResult :=
  wrapper (get_subject_token_inner (env sup.oidc_issuer_url (postBodyEntries sup)))
    now1 now2 s

/-- The `KeyCloakTokenSupplier` object: configuration plus the two fields
`_cached_token` and `_token_expiry` that `__init__` sets to `None`. -/
structure KeyCloakTokenSupplier where
  idp_link : String
  client_id : String
  client_secret : String
  cached_token : Option JsonVal
  token_expiry : Option Int
deriving Repr, DecidableEq

/-- `KeyCloakTokenSupplier.__init__`. -/
def KeyCloakTokenSupplier.make (idp_link client_id client_secret : String) :
    KeyCloakTokenSupplier :=
  { idp_link := idp_link, client_id := client_id, client_secret := client_secret
    cached_token := none, token_expiry := none }

/-- The entry sequence of the dict literal `KeyCloakTokenSupplier.get_subject_token`
posts: client_id, client_secret, grant_type, in source order. -/
def keyCloakPostBodyEntries (sup : KeyCloakTokenSupplier) : List (String × String) :=
  [("client_id", sup.client_id),
   ("client_secret", sup.client_secret),
   ("grant_type", "client_credentials")]

/-- One call to `KeyCloakTokenSupplier.get_subject_token`: it posts every
time, lets `raise_for_status` raise `requests.HTTPError` uncaught, lets
`r.json()` raise `requests.JSONDecodeError` uncaught, raises `KeyError`
when the body lacks `access_token`, and otherwise returns that field.  It
never reads or writes `_cached_token` or `_token_expiry`, so the object is
returned unchanged; the third component counts the POST round trips made
by the call. -/
def KeyCloakTokenSupplier.get_subject_token (sup : KeyCloakTokenSupplier)
    (env : String → List (String × String) → NetworkResult) :
    Except PyErr JsonVal × KeyCloakTokenSupplier × Nat :=
  match env sup.idp_link (keyCloakPostBodyEntries sup) with
  | .transportFailure => (.error .transportError, sup, 1)
  | .response r =>
    if isErrorStatus r.status then (.error .httpError, sup, 1)
    else
      match r.body with
      | none => (.error .jsonDecodeError, sup, 1)
      | some d =>
        match d.lookup "access_token" with
        | none => (.error (.keyError "access_token"), sup, 1)
        | some v => (.ok v, sup, 1)

/-- Helper: when the cache holds a token and the first clock reading does not
exceed the stored expiration time, the wrapper serves the cached value with
no fetch and no state change. -/
theorem wrapper_cache_hit (fetchResult : Except PyErr (JsonVal × JsonVal))
    (now1 now2 : Nat) (s : CacheState) (v : JsonVal)
    (htok : s.token = some v) (hexp : (now1 : Int) ≤ s.expiration_time) :
    wrapper fetchResult now1 now2 s =
      { result := .ok v, state := s, fetchCalls := 0 } := by
  unfold wrapper
  rw [if_neg]
  · rw [htok]
    rfl
  · push_neg
    exact ⟨by simp [htok], hexp⟩

/-- C1: cache-hit idempotence — for a supplier whose closure cache holds a
token string with an expiry not yet passed (the clock reading is strictly
below the stored expiration time), a call to the decorated
`get_subject_token` returns exactly the cached string, performs zero fetch
calls, leaves the state unchanged, and raises nothing, whatever the wrapped
fetch would have produced. -/
theorem cache_hit_idempotent (fetchResult : Except PyErr (JsonVal × JsonVal))
    (now1 now2 : Nat) (s : CacheState) (t : String)
    (htok : s.token = some (.str t)) (hexp : (now1 : Int) < s.expiration_time) :
    wrapper fetchResult now1 now2 s =
      { result := .ok (.str t), state := s, fetchCalls := 0 } :=
  wrapper_cache_hit fetchResult now1 now2 s (.str t) htok (le_of_lt hexp)

/-- C1 witness: concrete cache hit at reading 5 against expiration 70, with
a fetch outcome that would raise, still returning the cached string. -/
theorem cache_hit_idempotent_witness :
    wrapper (.error .refreshError) 5 5
        { token := some (.str "TOKEN_A"), expiration_time := 70 } =
      { result := .ok (.str "TOKEN_A")
        state := { token := some (.str "TOKEN_A"), expiration_time := 70 }
        fetchCalls := 0 } :=
  cache_hit_idempotent (.error .refreshError) 5 5
    { token := some (.str "TOKEN_A"), expiration_time := 70 } "TOKEN_A" rfl (by decide)

/-- C5 counterexample: a call arriving at exactly the stored expiration
instant (reading 10 against expiration_time 10) returns the cached token with
zero fetch calls, instead of triggering a refresh as the claim states —
the source guards the fetch with the strict `expiration_time <
time.monotonic()`. -/
theorem expiry_boundary_cex :
    wrapper (.ok (.str "TOKEN_B", .int 60)) 10 10
        { token := some (.str "TOKEN_A"), expiration_time := 10 } =
      { result := .ok (.str "TOKEN_A")
        state := { token := some (.str "TOKEN_A"), expiration_time := 10 }
        fetchCalls := 0 } := by
  decide

/-- C5 amended: the fetch branch is taken exactly when the token is absent
or the current reading is strictly greater than the stored expiration time;
a call arriving at exactly the expiration instant is a cache hit and returns
the cached token with no fetch. -/
theorem expiry_boundary_strict (fetchResult : Except PyErr (JsonVal × JsonVal))
    (now1 now2 : Nat) (s : CacheState) :
    ((wrapper fetchResult now1 now2 s).fetchCalls = 1 ↔
      (s.token = none ∨ s.expiration_time < (now1 : Int))) ∧
    ((wrapper fetchResult now1 now2 s).fetchCalls = 0 ↔
      ¬ (s.token = none ∨ s.expiration_time < (now1 : Int))) ∧
    (∀ v, s.token = some v → s.expiration_time = (now1 : Int) →
      wrapper fetchResult now1 now2 s =
        { result := .ok v, state := s, fetchCalls := 0 }) := by
  refine ⟨?_, ?_, ?_⟩
  · by_cases hcond : s.token = none ∨ s.expiration_time < (now1 : Int)
    · unfold wrapper
      rw [if_pos hcond]
      rcases fetchResult with e | ⟨tok, exp⟩
      · exact iff_of_true rfl hcond
      · rcases tok with t | n | _ <;> rcases exp with t2 | n2 | _ <;>
          exact iff_of_true rfl hcond
    · unfold wrapper
      rw [if_neg hcond]
      exact iff_of_false (fun h => Nat.zero_ne_one h) hcond
  · by_cases hcond : s.token = none ∨ s.expiration_time < (now1 : Int)
    · unfold wrapper
      rw [if_pos hcond]
      rcases fetchResult with e | ⟨tok, exp⟩
      · exact iff_of_false (fun h => Nat.one_ne_zero h) (not_not_intro hcond)
      · rcases tok with t | n | _ <;> rcases exp with t2 | n2 | _ <;>
          exact iff_of_false (fun h => Nat.one_ne_zero h) (not_not_intro hcond)
    · unfold wrapper
      rw [if_neg hcond]
      exact iff_of_true rfl hcond
  · intro v htok hexp
    exact wrapper_cache_hit fetchResult now1 now2 s v htok (le_of_eq hexp.symm)

/-- C5 witness: the amended boundary behaviour instantiated at a concrete
cache hit arriving exactly at the expiration instant. -/
theorem expiry_boundary_strict_witness :
    wrapper (.error .refreshError) 42 42
        { token := some (.str "T"), expiration_time := 42 } =
      { result := .ok (.str "T")
        state := { token := some (.str "T"), expiration_time := 42 }
        fetchCalls := 0 } :=
  (expiry_boundary_strict (.error .refreshError) 42 42
    { token := some (.str "T"), expiration_time := 42 }).2.2 (.str "T") rfl (by decide)

/-- C6 counterexample: a successful fetch returning `expires_in = 0` at
monotonic reading 5 stores expiration_time 5; an immediately following call
whose monotonic reading is still 5 finds `5 < 5` false, serves the stored
token, and performs zero further fetch calls — against the claim that the
very next call performs exactly one more fetch for every `expires_in ≤ 0`. -/
theorem zero_expires_in_cex :
    (wrapper (.ok (.str "T", .int 0)) 5 5 initialCacheState).state =
        { token := some (.str "T"), expiration_time := 5 } ∧
    wrapper (.ok (.str "U", .int 60)) 5 5
        { token := some (.str "T"), expiration_time := 5 } =
      { result := .ok (.str "T")
        state := { token := some (.str "T"), expiration_time := 5 }
        fetchCalls := 0 } := by
  constructor
  · decide
  · decide

/-- C6 amended: a successful fetch returning `expires_in ≤ 0` stores the
token with an expiration time not above the storing reading, so the very
next call re-fetches provided `expires_in < 0`, or `expires_in = 0` and the
monotonic clock reading has strictly advanced; with `expires_in = 0` and an
unchanged reading the cached token is served without a fetch (see the
counterexample). -/
theorem nonpositive_expires_in_refresh (t : String) (n : Int)
    (fetchResult2 : Except PyErr (JsonVal × JsonVal))
    (now1 now2 now3 now4 : Nat) (s : CacheState)
    (hs : s.token = none) (hn : n ≤ 0) (hmono : now2 ≤ now3)
    (hadv : n < 0 ∨ now2 < now3) :
    (wrapper (.ok (.str t, .int n)) now1 now2 s).fetchCalls = 1 ∧
    (wrapper (.ok (.str t, .int n)) now1 now2 s).state.token = some (.str t) ∧
    (wrapper fetchResult2 now3 now4
      (wrapper (.ok (.str t, .int n)) now1 now2 s).state).fetchCalls = 1 := by
  have h1 : wrapper (.ok (.str t, .int n)) now1 now2 s =
      { result := .ok (.str t)
        state := { token := some (.str t), expiration_time := (now2 : Int) + n }
        fetchCalls := 1 } := by
    unfold wrapper
    rw [if_pos (Or.inl hs)]
  rw [h1]
  refine ⟨rfl, rfl, ?_⟩
  have hexp : (now2 : Int) + n < (now3 : Int) := by
    rcases hadv with h | h
    · calc (now2 : Int) + n < (now2 : Int) + 0 := by exact add_lt_add_left h now2
        _ = (now2 : Int) := by ring
        _ ≤ (now3 : Int) := by exact_mod_cast hmono
    · calc (now2 : Int) + n ≤ (now2 : Int) + 0 := add_le_add_left hn now2
        _ = (now2 : Int) := by ring
        _ < (now3 : Int) := by exact_mod_cast h
  unfold wrapper
  rw [if_pos (Or.inr hexp)]
  rcases fetchResult2 with e | ⟨tok, exp⟩
  · rfl
  · rcases tok with t2 | n2 | _ <;> rcases exp with t3 | n3 | _ <;> rfl

/-- C6 witness: `expires_in = -1` stored at reading 5; a second call at the
same reading 5 still performs one more fetch. -/
theorem nonpositive_expires_in_refresh_witness :
    (wrapper (.ok (.str "T", .int (-1))) 5 5 initialCacheState).fetchCalls = 1 ∧
    (wrapper (.ok (.str "T", .int (-1))) 5 5 initialCacheState).state.token =
      some (.str "T") ∧
    (wrapper (.ok (.str "T2", .int 60)) 5 5
      (wrapper (.ok (.str "T", .int (-1))) 5 5 initialCacheState).state).fetchCalls = 1 :=
  nonpositive_expires_in_refresh "T" (-1) (.ok (.str "T2", .int 60)) 5 5 5 5
    initialCacheState rfl (by decide) (le_refl 5) (Or.inl (by decide))

/-- C3 counterexample: with an expired cached token "TOKEN_A" the fetch
branch is entered; the fetch returns a non-string access_token together with
an integer expires_in, the tuple assignment overwrites the closure cell
`token` with the non-string value, and only then does the isinstance
validation raise RefreshError — so the call fails yet the cached token field
is not what it was before the attempt. -/
theorem refresh_failure_mutates_cache_cex :
    wrapper (.ok (.other, .int 60)) 10 10
        { token := some (.str "TOKEN_A"), expiration_time := 3 } =
      { result := .error .refreshError
        state := { token := some .other, expiration_time := 3 }
        fetchCalls := 1 } ∧
    ({ token := some .other, expiration_time := 3 } : CacheState) ≠
      { token := some (.str "TOKEN_A"), expiration_time := 3 } := by
  constructor
  · decide
  · decide

/-- C3 amended: when the wrapped fetch itself raises, the exception
propagates and both cached cells are exactly what they were before the
attempt; but when the fetch succeeds and the wrapper type validation rejects
the values, RefreshError propagates with the expiration time unchanged while
the cached token cell has already been overwritten with the unvalidated
fetched access_token value. -/
theorem refresh_failure_atomicity (fetchResult : Except PyErr (JsonVal × JsonVal))
    (now1 now2 : Nat) (s : CacheState) :
    (∀ e, fetchResult = .error e →
      (wrapper fetchResult now1 now2 s).state = s ∧
      ((wrapper fetchResult now1 now2 s).fetchCalls = 1 →
        (wrapper fetchResult now1 now2 s).result = .error e)) ∧
    (∀ tok exp, fetchResult = .ok (tok, exp) →
      (s.token = none ∨ s.expiration_time < (now1 : Int)) →
      ((∀ t, tok ≠ .str t) ∨ (∀ n, exp ≠ .int n)) →
      wrapper fetchResult now1 now2 s =
        { result := .error .refreshError
          state := { token := some tok, expiration_time := s.expiration_time }
          fetchCalls := 1 }) := by
  constructor
  · rintro e rfl
    unfold wrapper
    by_cases hcond : s.token = none ∨ s.expiration_time < (now1 : Int)
    · rw [if_pos hcond]
      exact ⟨rfl, fun _ => rfl⟩
    · rw [if_neg hcond]
      exact ⟨rfl, fun h => absurd h (fun h => Nat.zero_ne_one h)⟩
  · rintro tok exp rfl hcond hbad
    unfold wrapper
    rw [if_pos hcond]
    rcases tok with t | m | _ <;> rcases exp with t2 | m2 | _ <;>
      first
        | rfl
        | (rcases hbad with h | h
           · exact absurd rfl (h _)
           · exact absurd rfl (h _))

/-- C3 witness: the amended statement instantiated both at a fetch that
raises a transport exception (state unchanged) and at a fetch returning a
non-string token (token cell overwritten, expiration kept). -/
theorem refresh_failure_atomicity_witness :
    ((wrapper (.error .transportError) 9 9
        { token := some (.str "OLD"), expiration_time := 4 }).state =
      { token := some (.str "OLD"), expiration_time := 4 }) ∧
    (wrapper (.ok (.other, .int 30)) 9 9
        { token := some (.str "OLD"), expiration_time := 4 } =
      { result := .error .refreshError
        state := { token := some .other, expiration_time := 4 }
        fetchCalls := 1 }) :=
  ⟨((refresh_failure_atomicity (.error .transportError) 9 9
      { token := some (.str "OLD"), expiration_time := 4 }).1
      .transportError rfl).1,
   (refresh_failure_atomicity (.ok (.other, .int 30)) 9 9
      { token := some (.str "OLD"), expiration_time := 4 }).2
      .other (.int 30) rfl (Or.inr (by decide))
      (Or.inl (fun t h => JsonVal.noConfusion h))⟩

/-- Helper: any exception the inner (undecorated) `get_subject_token` body
raises from an actual HTTP response is RefreshError; only a transport
failure of `requests.post` itself escapes as a different kind. -/
theorem inner_error_kind (net : NetworkResult) (e : PyErr)
    (h : get_subject_token_inner net = .error e) :
    (net = .transportFailure ∧ e = .transportError) ∨ e = .refreshError := by
  cases net with
  | transportFailure =>
    exact Or.inl ⟨rfl, (Except.error.inj h).symm⟩
  | response r =>
    right
    simp only [get_subject_token_inner] at h
    split at h
    · exact (Except.error.inj h).symm
    · split at h
      · exact (Except.error.inj h).symm
      · split at h
        · exact Except.noConfusion h
        · exact (Except.error.inj h).symm

/-- Helper: any exception escaping one call to the wrapper is either the
exception the wrapped fetch raised, or the RefreshError of the wrapper own
type validation. -/
theorem wrapper_error_kind (fetchResult : Except PyErr (JsonVal × JsonVal))
    (now1 now2 : Nat) (s : CacheState) (e : PyErr)
    (h : (wrapper fetchResult now1 now2 s).result = .error e) :
    fetchResult = .error e ∨ e = .refreshError := by
  unfold wrapper at h
  by_cases hcond : s.token = none ∨ s.expiration_time < (now1 : Int)
  · rw [if_pos hcond] at h
    rcases fetchResult with e2 | ⟨tok, exp⟩
    · exact Or.inl (congrArg Except.error (Except.error.inj h))
    · rcases tok with t | m | _ <;> rcases exp with t2 | m2 | _ <;>
        first
          | exact Except.noConfusion h
          | exact Or.inr (Except.error.inj h).symm
  · rw [if_neg hcond] at h
    exact Except.noConfusion h

/-- Helper: a value returned by a wrapper call that actually performed a
fetch is always a type-validated string. -/
theorem wrapper_fetched_ok_is_str (fetchResult : Except PyErr (JsonVal × JsonVal))
    (now1 now2 : Nat) (s : CacheState) (v : JsonVal)
    (hc : (wrapper fetchResult now1 now2 s).fetchCalls = 1)
    (h : (wrapper fetchResult now1 now2 s).result = .ok v) : ∃ t, v = .str t := by
  unfold wrapper at hc h
  by_cases hcond : s.token = none ∨ s.expiration_time < (now1 : Int)
  · rw [if_pos hcond] at h
    rcases fetchResult with e2 | ⟨tok, exp⟩
    · exact Except.noConfusion h
    · rcases tok with t | m | _ <;> rcases exp with t2 | m2 | _ <;>
        first
          | exact ⟨t, (Except.ok.inj h).symm⟩
          | exact Except.noConfusion h
  · rw [if_neg hcond] at hc
    exact absurd hc (fun hx => Nat.zero_ne_one hx)

/-- C4 counterexample: when `requests.post` itself raises a transport level
exception (connection refused, timeout), nothing in the source catches it —
`get_subject_token` surfaces the transport exception itself, not
RefreshError. -/
theorem transport_error_not_unified_cex :
    (get_subject_token
        { oidc_issuer_url := "https://idp.example.com/token", client_id := "cid"
          client_secret := "secret", extra_params_kwargs := [] }
        (fun _ _ => .transportFailure) 0 0 initialCacheState).result =
      .error .transportError ∧
    (get_subject_token
        { oidc_issuer_url := "https://idp.example.com/token", client_id := "cid"
          client_secret := "secret", extra_params_kwargs := [] }
        (fun _ _ => .transportFailure) 0 0 initialCacheState).result ≠
      .error .refreshError := by
  constructor
  · rfl
  · intro h
    exact PyErr.noConfusion (Except.error.inj h)

/-- C4 amended: when a fetch is attempted, every failure that stems from an
actual IdP response — non-success HTTP status, non-JSON body, missing
fields, or the wrapper type validation — surfaces as RefreshError, while a
transport level exception raised by the HTTP client propagates as that
exception, not as RefreshError. -/
theorem error_kind_classification (sup : ClientCredentialsGrantFlowTokenSupplier)
    (env : String → List (String × String) → NetworkResult)
    (now1 now2 : Nat) (s : CacheState)
    (henter : s.token = none ∨ s.expiration_time < (now1 : Int)) :
    (env sup.oidc_issuer_url (postBodyEntries sup) = .transportFailure →
      (get_subject_token sup env now1 now2 s).result = .error .transportError) ∧
    (∀ r, env sup.oidc_issuer_url (postBodyEntries sup) = .response r →
      ∀ e, (get_subject_token sup env now1 now2 s).result = .error e →
        e = .refreshError) := by
  constructor
  · intro henv
    unfold get_subject_token
    rw [henv]
    unfold wrapper
    rw [if_pos henter]
    rfl
  · intro r henv e h
    unfold get_subject_token at h
    rw [henv] at h
    rcases wrapper_error_kind _ _ _ _ _ h with hf | hrefresh
    · rcases inner_error_kind _ _ hf with ⟨hnet, _⟩ | he
      · exact NetworkResult.noConfusion hnet
      · exact he
    · exact hrefresh

/-- C4 witness: the amended classification instantiated at an empty cache,
once with a transport failure and once with an HTTP 500 response. -/
theorem error_kind_classification_witness :
    ((get_subject_token
        { oidc_issuer_url := "https://a", client_id := "c"
          client_secret := "s", extra_params_kwargs := [] }
        (fun _ _ => .transportFailure) 3 3 initialCacheState).result =
      .error .transportError) ∧
    (∀ e, (get_subject_token
        { oidc_issuer_url := "https://a", client_id := "c"
          client_secret := "s", extra_params_kwargs := [] }
        (fun _ _ => .response { status := 500, body := none }) 3 3
        initialCacheState).result = .error e → e = .refreshError) :=
  ⟨(error_kind_classification
      { oidc_issuer_url := "https://a", client_id := "c"
        client_secret := "s", extra_params_kwargs := [] }
      (fun _ _ => .transportFailure) 3 3 initialCacheState (Or.inl rfl)).1 rfl,
   fun e => (error_kind_classification
      { oidc_issuer_url := "https://a", client_id := "c"
        client_secret := "s", extra_params_kwargs := [] }
      (fun _ _ => .response { status := 500, body := none }) 3 3
      initialCacheState (Or.inl rfl)).2 { status := 500, body := none } rfl e⟩

/-- C7: starting from the empty cache, a fetch whose response carries a
non-success HTTP status (raise_for_status raises), and a fetch whose
successful-status response body lacks `access_token` or `expires_in`, both
make `get_subject_token` fail with RefreshError and leave the cache exactly
in its empty initial state — no token is stored. -/
theorem bad_response_rejected (sup : ClientCredentialsGrantFlowTokenSupplier)
    (env : String → List (String × String) → NetworkResult) (now1 now2 : Nat) :
    (∀ r, env sup.oidc_issuer_url (postBodyEntries sup) = .response r →
      isErrorStatus r.status = true →
      get_subject_token sup env now1 now2 initialCacheState =
        { result := .error .refreshError, state := initialCacheState
          fetchCalls := 1 }) ∧
    (∀ st d, env sup.oidc_issuer_url (postBodyEntries sup) =
        .response { status := st, body := some d } →
      isErrorStatus st = false →
      (d.lookup "access_token" = none ∨ d.lookup "expires_in" = none) →
      get_subject_token sup env now1 now2 initialCacheState =
        { result := .error .refreshError, state := initialCacheState
          fetchCalls := 1 }) := by
  have hw : ∀ f : Except PyErr (JsonVal × JsonVal), f = .error .refreshError →
      wrapper f now1 now2 initialCacheState =
        { result := .error .refreshError, state := initialCacheState
          fetchCalls := 1 } := by
    rintro f rfl
    unfold wrapper
    rw [if_pos (show initialCacheState.token = none ∨
      initialCacheState.expiration_time < (now1 : Int) from Or.inl rfl)]
  constructor
  · intro r henv hst
    unfold get_subject_token
    rw [henv]
    refine hw _ ?_
    simp [get_subject_token_inner, hst]
  · intro st d henv hst hmiss
    unfold get_subject_token
    rw [henv]
    refine hw _ ?_
    simp only [get_subject_token_inner, hst, Bool.false_eq_true, if_false]
    rcases hat : d.lookup "access_token" with _ | tok
    · rcases hei : d.lookup "expires_in" with _ | exp <;> rfl
    · rcases hei : d.lookup "expires_in" with _ | exp
      · rfl
      · rcases hmiss with h | h
        · exact Option.noConfusion (h.symm.trans hat)
        · exact Option.noConfusion (h.symm.trans hei)

/-- C7 witness: an HTTP 500 response, and a well-status response whose body
has only `expires_in`, both rejected with RefreshError from the empty
cache. -/
theorem bad_response_rejected_witness :
    (get_subject_token
        { oidc_issuer_url := "https://b", client_id := "c"
          client_secret := "s", extra_params_kwargs := [] }
        (fun _ _ => .response { status := 500, body := some [] }) 1 1
        initialCacheState =
      { result := .error .refreshError, state := initialCacheState
        fetchCalls := 1 }) ∧
    (get_subject_token
        { oidc_issuer_url := "https://b", client_id := "c"
          client_secret := "s", extra_params_kwargs := [] }
        (fun _ _ => .response { status := 200, body := some [("expires_in", .int 60)] })
        2 2 initialCacheState =
      { result := .error .refreshError, state := initialCacheState
        fetchCalls := 1 }) :=
  ⟨(bad_response_rejected
      { oidc_issuer_url := "https://b", client_id := "c"
        client_secret := "s", extra_params_kwargs := [] }
      (fun _ _ => .response { status := 500, body := some [] }) 1 1).1
      { status := 500, body := some [] } rfl (by decide),
   (bad_response_rejected
      { oidc_issuer_url := "https://b", client_id := "c"
        client_secret := "s", extra_params_kwargs := [] }
      (fun _ _ => .response { status := 200, body := some [("expires_in", .int 60)] })
      2 2).2 200 [("expires_in", .int 60)] rfl (by decide) (Or.inl (by decide))⟩

/-- C8 counterexample: a fetch returning a non-string access_token makes the
call fail with RefreshError, yet the malformed value is written into the
cache slot — the tuple assignment stores it before the isinstance validation
runs — against the claim that the call fails rather than caching the
malformed value. -/
theorem malformed_value_cached_cex :
    wrapper (.ok (.other, .int 45)) 7 7 initialCacheState =
      { result := .error .refreshError
        state := { token := some .other, expiration_time := 0 }
        fetchCalls := 1 } := by
  decide

/-- C8 amended: a fetch returning a non-string access_token or a non-integer
expires_in makes the call fail with RefreshError, and the malformed
access_token value is stored into the cache slot with the expiration time
left stale; because the expiration is stale, any subsequent call whose
(positive) monotonic reading is at least the first reading re-fetches
instead of serving the cache, and a call that fetches only ever returns a
type-validated string — so the malformed value is never returned. -/
theorem field_type_validation (tok exp : JsonVal)
    (fetchResult2 : Except PyErr (JsonVal × JsonVal))
    (now1 now2 now3 now4 : Nat) (s : CacheState)
    (hmal : (∀ t, tok ≠ .str t) ∨ (∀ n, exp ≠ .int n))
    (hreach : (s.token = none ∧ s.expiration_time = 0) ∨
      s.expiration_time < (now1 : Int))
    (hmono : now1 ≤ now3) (hpos : 0 < now3) :
    (wrapper (.ok (tok, exp)) now1 now2 s).result = .error .refreshError ∧
    (wrapper (.ok (tok, exp)) now1 now2 s).state =
      { token := some tok, expiration_time := s.expiration_time } ∧
    (wrapper fetchResult2 now3 now4
      (wrapper (.ok (tok, exp)) now1 now2 s).state).fetchCalls = 1 ∧
    (∀ v, (wrapper fetchResult2 now3 now4
        (wrapper (.ok (tok, exp)) now1 now2 s).state).result = .ok v →
      ∃ t, v = .str t) := by
  have hcond : s.token = none ∨ s.expiration_time < (now1 : Int) := by
    rcases hreach with ⟨h1, _⟩ | h1
    · exact Or.inl h1
    · exact Or.inr h1
  have h1 : wrapper (.ok (tok, exp)) now1 now2 s =
      { result := .error .refreshError
        state := { token := some tok, expiration_time := s.expiration_time }
        fetchCalls := 1 } := by
    unfold wrapper
    rw [if_pos hcond]
    rcases tok with t | m | _ <;> rcases exp with t2 | m2 | _ <;>
      first
        | rfl
        | (rcases hmal with h | h
           · exact absurd rfl (h _)
           · exact absurd rfl (h _))
  have hexp3 : s.expiration_time < (now3 : Int) := by
    rcases hreach with ⟨_, h2⟩ | h2
    · rw [h2]
      exact_mod_cast hpos
    · calc s.expiration_time < (now1 : Int) := h2
        _ ≤ (now3 : Int) := by exact_mod_cast hmono
  have hcond2 : ({ token := some tok, expiration_time := s.expiration_time } :
        CacheState).token = none ∨
      ({ token := some tok, expiration_time := s.expiration_time } :
        CacheState).expiration_time < (now3 : Int) := Or.inr hexp3
  have h2 : (wrapper fetchResult2 now3 now4
      { token := some tok, expiration_time := s.expiration_time }).fetchCalls = 1 := by
    unfold wrapper
    rw [if_pos hcond2]
    rcases fetchResult2 with e | ⟨tok2, exp2⟩
    · rfl
    · rcases tok2 with t | m | _ <;> rcases exp2 with t2 | m2 | _ <;> rfl
  rw [h1]
  exact ⟨rfl, rfl, h2, fun v hv => wrapper_fetched_ok_is_str fetchResult2 now3 now4
    { token := some tok, expiration_time := s.expiration_time } v h2 hv⟩

/-- C8 witness: a non-integer expires_in at the first call from the empty
cache, followed by a successful fetch one tick later that returns a fresh
string token. -/
theorem field_type_validation_witness :
    ((wrapper (.ok (.str "tok", .other)) 0 0 initialCacheState).result =
      .error .refreshError) ∧
    ((wrapper (.ok (.str "tok", .other)) 0 0 initialCacheState).state =
      { token := some (.str "tok"), expiration_time := 0 }) ∧
    ((wrapper (.ok (.str "tok2", .int 60)) 1 1
      (wrapper (.ok (.str "tok", .other)) 0 0 initialCacheState).state).fetchCalls = 1) ∧
    (∀ v, (wrapper (.ok (.str "tok2", .int 60)) 1 1
        (wrapper (.ok (.str "tok", .other)) 0 0 initialCacheState).state).result =
      .ok v → ∃ t, v = .str t) :=
  field_type_validation (.str "tok") .other (.ok (.str "tok2", .int 60)) 0 0 1 1
    initialCacheState (Or.inr (fun n h => JsonVal.noConfusion h))
    (Or.inl ⟨rfl, rfl⟩) (by decide) (by decide)

/-- C2 counterexample: two distinct ClientCredentialsGrantFlowTokenSupplier
instances with different issuer URLs and credentials; the token fetched and
cached through the first instance IS returned by a call on the second
instance, with zero fetch calls — the decorator closure cells are created
once at class creation and shared by all instances. -/
theorem cache_shared_across_instances_cex :
    (let supA : ClientCredentialsGrantFlowTokenSupplier :=
       { oidc_issuer_url := "https://idp-a.example/token", client_id := "cidA"
         client_secret := "secA", extra_params_kwargs := [] }
     let supB : ClientCredentialsGrantFlowTokenSupplier :=
       { oidc_issuer_url := "https://idp-b.example/token", client_id := "cidB"
         client_secret := "secB", extra_params_kwargs := [] }
     let env : String → List (String × String) → NetworkResult := fun url _ =>
       if url = "https://idp-a.example/token" then
         .response { status := 200
                     body := some [("access_token", .str "tokA"),
                                   ("expires_in", .int 60)] }
       else
         .response { status := 200
                     body := some [("access_token", .str "tokB"),
                                   ("expires_in", .int 60)] }
     supA ≠ supB ∧
     (get_subject_token supA env 10 10 initialCacheState).result = .ok (.str "tokA") ∧
     get_subject_token supB env 20 20
         (get_subject_token supA env 10 10 initialCacheState).state =
       { result := .ok (.str "tokA")
         state := { token := some (.str "tokA"), expiration_time := 70 }
         fetchCalls := 0 }) := by
  decide

/-- C2 amended: the decorated method carries one single pair of cache cells
created when the class body is evaluated, so every instance of
ClientCredentialsGrantFlowTokenSupplier shares the same CachedToken slot: a
token fetched and cached through one instance is returned by a call on any
other instance while it is unexpired, with zero fetch calls on the second
instance, whatever the second instance credentials and IdP would answer. -/
theorem cache_slot_shared_across_instances
    (supA supB : ClientCredentialsGrantFlowTokenSupplier)
    (env : String → List (String × String) → NetworkResult)
    (t : String) (n : Int) (now1 now2 now3 now4 : Nat) (s : CacheState)
    (hs : s.token = none)
    (henvA : env supA.oidc_issuer_url (postBodyEntries supA) =
      .response { status := 200
                  body := some [("access_token", .str t), ("expires_in", .int n)] })
    (hvalid : (now3 : Int) ≤ (now2 : Int) + n) :
    (get_subject_token supA env now1 now2 s).result = .ok (.str t) ∧
    (get_subject_token supA env now1 now2 s).fetchCalls = 1 ∧
    get_subject_token supB env now3 now4
        (get_subject_token supA env now1 now2 s).state =
      { result := .ok (.str t)
        state := { token := some (.str t), expiration_time := (now2 : Int) + n }
        fetchCalls := 0 } := by
  have h1 : get_subject_token supA env now1 now2 s =
      { result := .ok (.str t)
        state := { token := some (.str t), expiration_time := (now2 : Int) + n }
        fetchCalls := 1 } := by
    unfold get_subject_token
    rw [henvA]
    have hinner : get_subject_token_inner
        (.response { status := 200
                     body := some [("access_token", .str t), ("expires_in", .int n)] }) =
        .ok (.str t, .int n) := rfl
    rw [hinner]
    unfold wrapper
    rw [if_pos (Or.inl hs)]
  rw [h1]
  exact ⟨rfl, rfl,
    wrapper_cache_hit _ now3 now4
      { token := some (.str t), expiration_time := (now2 : Int) + n }
      (.str t) rfl hvalid⟩

/-- C2 amended witness: instance A caches "tokA" at reading 10 with
expires_in 60; a call on instance B at reading 30 returns "tokA" with zero
fetch calls although the IdP of B would answer "tokB". -/
theorem cache_slot_shared_across_instances_witness :
    ((get_subject_token
        { oidc_issuer_url := "https://idp-a.example/token", client_id := "cidA"
          client_secret := "secA", extra_params_kwargs := [] }
        (fun url _ =>
          if url = "https://idp-a.example/token" then
            .response { status := 200
                        body := some [("access_token", .str "tokA"),
                                      ("expires_in", .int 60)] }
          else
            .response { status := 200
                        body := some [("access_token", .str "tokB"),
                                      ("expires_in", .int 60)] })
        10 10 initialCacheState).result = .ok (.str "tokA")) ∧
    ((get_subject_token
        { oidc_issuer_url := "https://idp-a.example/token", client_id := "cidA"
          client_secret := "secA", extra_params_kwargs := [] }
        (fun url _ =>
          if url = "https://idp-a.example/token" then
            .response { status := 200
                        body := some [("access_token", .str "tokA"),
                                      ("expires_in", .int 60)] }
          else
            .response { status := 200
                        body := some [("access_token", .str "tokB"),
                                      ("expires_in", .int 60)] })
        10 10 initialCacheState).fetchCalls = 1) ∧
    (get_subject_token
        { oidc_issuer_url := "https://idp-b.example/token", client_id := "cidB"
          client_secret := "secB", extra_params_kwargs := [] }
        (fun url _ =>
          if url = "https://idp-a.example/token" then
            .response { status := 200
                        body := some [("access_token", .str "tokA"),
                                      ("expires_in", .int 60)] }
          else
            .response { status := 200
                        body := some [("access_token", .str "tokB"),
                                      ("expires_in", .int 60)] })
        30 30
        (get_subject_token
          { oidc_issuer_url := "https://idp-a.example/token", client_id := "cidA"
            client_secret := "secA", extra_params_kwargs := [] }
          (fun url _ =>
            if url = "https://idp-a.example/token" then
              .response { status := 200
                          body := some [("access_token", .str "tokA"),
                                        ("expires_in", .int 60)] }
            else
              .response { status := 200
                          body := some [("access_token", .str "tokB"),
                                        ("expires_in", .int 60)] })
          10 10 initialCacheState).state) =
      { result := .ok (.str "tokA")
        state := { token := some (.str "tokA"), expiration_time := 70 }
        fetchCalls := 0 } :=
  cache_slot_shared_across_instances
    { oidc_issuer_url := "https://idp-a.example/token", client_id := "cidA"
      client_secret := "secA", extra_params_kwargs := [] }
    { oidc_issuer_url := "https://idp-b.example/token", client_id := "cidB"
      client_secret := "secB", extra_params_kwargs := [] }
    (fun url _ =>
      if url = "https://idp-a.example/token" then
        .response { status := 200
                    body := some [("access_token", .str "tokA"),
                                  ("expires_in", .int 60)] }
      else
        .response { status := 200
                    body := some [("access_token", .str "tokB"),
                                  ("expires_in", .int 60)] })
    "tokA" 60 10 10 30 30 initialCacheState rfl (by decide) (by decide)

/-- Helper: a key carried by no entry of a list is not found when the
reversed list is scanned. -/
theorem find_rev_none_of_not_mem (l : List (String × String)) (k : String)
    (h : k ∉ l.map Prod.fst) :
    l.reverse.find? (fun p => p.1 = k) = none := by
  rw [List.find?_eq_none]
  intro p hp hpk
  simp only [List.mem_reverse] at hp
  simp only [decide_eq_true_eq] at hpk
  exact h (List.mem_map.mpr ⟨p, hp, hpk⟩)

/-- Helper: when the keys of a list are pairwise distinct, scanning the
reversed list for a key finds exactly the entry carrying it. -/
theorem find_rev_of_mem_nodup (l : List (String × String)) (k v : String)
    (hnd : (l.map Prod.fst).Nodup) (hmem : (k, v) ∈ l) :
    l.reverse.find? (fun p => p.1 = k) = some (k, v) := by
  induction l with
  | nil => cases hmem
  | cons a tl ih =>
    rw [List.reverse_cons, List.find?_append]
    simp only [List.map_cons, List.nodup_cons] at hnd
    rcases List.mem_cons.mp hmem with heq | hmem2
    · subst heq
      rw [find_rev_none_of_not_mem tl k hnd.1]
      simp
    · rw [ih hnd.2 hmem2]
      rfl

/-- C9: the form-encoded POST body of
`ClientCredentialsGrantFlowTokenSupplier.get_subject_token` lists the three
fixed grant fields first and then merges every extra parameter in after
them; a fixed field keeps its value when no extra parameter collides with
it, and an extra parameter whose key collides with a fixed field replaces
the fixed value under Python dict construction semantics. -/
theorem post_body_override (sup : ClientCredentialsGrantFlowTokenSupplier) :
    postBodyEntries sup =
      [("grant_type", "client_credentials"), ("client_id", sup.client_id),
       ("client_secret", sup.client_secret)] ++ sup.extra_params_kwargs ∧
    ("grant_type" ∉ sup.extra_params_kwargs.map Prod.fst →
      dictGet (postBodyEntries sup) "grant_type" = some "client_credentials") ∧
    ("client_id" ∉ sup.extra_params_kwargs.map Prod.fst →
      dictGet (postBodyEntries sup) "client_id" = some sup.client_id) ∧
    ("client_secret" ∉ sup.extra_params_kwargs.map Prod.fst →
      dictGet (postBodyEntries sup) "client_secret" = some sup.client_secret) ∧
    ((sup.extra_params_kwargs.map Prod.fst).Nodup →
      ∀ k v, (k, v) ∈ sup.extra_params_kwargs →
        dictGet (postBodyEntries sup) k = some v) := by
  refine ⟨rfl, ?_, ?_, ?_, ?_⟩
  · intro hnc
    unfold dictGet postBodyEntries
    rw [List.reverse_append, List.find?_append,
      find_rev_none_of_not_mem sup.extra_params_kwargs "grant_type" hnc]
    rfl
  · intro hnc
    unfold dictGet postBodyEntries
    rw [List.reverse_append, List.find?_append,
      find_rev_none_of_not_mem sup.extra_params_kwargs "client_id" hnc]
    rfl
  · intro hnc
    unfold dictGet postBodyEntries
    rw [List.reverse_append, List.find?_append,
      find_rev_none_of_not_mem sup.extra_params_kwargs "client_secret" hnc]
    rfl
  · intro hnd k v hmem
    unfold dictGet postBodyEntries
    rw [List.reverse_append, List.find?_append,
      find_rev_of_mem_nodup sup.extra_params_kwargs k v hnd hmem]
    rfl

/-- C9 witness: with extra parameters `grant_type=urn:custom` and
`audience=aud`, the body keeps client_id (no collision) and replaces
grant_type with the extra value. -/
theorem post_body_override_witness :
    dictGet (postBodyEntries
        { oidc_issuer_url := "https://a", client_id := "cid"
          client_secret := "sec"
          extra_params_kwargs := [("grant_type", "urn:custom"), ("audience", "aud")] })
      "client_id" = some "cid" ∧
    dictGet (postBodyEntries
        { oidc_issuer_url := "https://a", client_id := "cid"
          client_secret := "sec"
          extra_params_kwargs := [("grant_type", "urn:custom"), ("audience", "aud")] })
      "grant_type" = some "urn:custom" :=
  ⟨(post_body_override
      { oidc_issuer_url := "https://a", client_id := "cid"
        client_secret := "sec"
        extra_params_kwargs := [("grant_type", "urn:custom"), ("audience", "aud")] }).2.2.1
      (by decide),
   (post_body_override
      { oidc_issuer_url := "https://a", client_id := "cid"
        client_secret := "sec"
        extra_params_kwargs := [("grant_type", "urn:custom"), ("audience", "aud")] }).2.2.2.2
      (by decide) "grant_type" "urn:custom" (by decide)⟩

/-- Helper: every branch of `KeyCloakTokenSupplier.get_subject_token`
returns the supplier object unchanged and has made exactly one POST round
trip. -/
theorem keycloak_step_state (sup : KeyCloakTokenSupplier)
    (env : String → List (String × String) → NetworkResult) :
    (sup.get_subject_token env).2.1 = sup ∧ (sup.get_subject_token env).2.2 = 1 := by
  unfold KeyCloakTokenSupplier.get_subject_token
  rcases env sup.idp_link (keyCloakPostBodyEntries sup) with _ | r
  · exact ⟨rfl, rfl⟩
  · rcases r with ⟨st, body⟩
    by_cases hst : isErrorStatus st = true
    · simp [hst]
    · rcases body with _ | d
      · simp [hst]
      · rcases hat : d.lookup "access_token" with _ | v
        · simp [hst, hat]
        · simp [hst, hat]

/-- C10: KeyCloakTokenSupplier performs no caching: for any supplier object
whose two cache fields hold None — which is how `__init__` leaves them —
every `get_subject_token` call makes exactly one fresh POST and returns the
object unchanged with both `_cached_token` and `_token_expiry` still None
(no branch ever reads or writes them); a successful-status JSON response
yields exactly its access_token field; and a body lacking access_token
raises a plain KeyError, never RefreshError. -/
theorem keycloak_no_caching (sup : KeyCloakTokenSupplier)
    (env : String → List (String × String) → NetworkResult)
    (hct : sup.cached_token = none) (hte : sup.token_expiry = none) :
    (sup.get_subject_token env).2.1 = sup ∧
    (sup.get_subject_token env).2.1.cached_token = none ∧
    (sup.get_subject_token env).2.1.token_expiry = none ∧
    (sup.get_subject_token env).2.2 = 1 ∧
    (∀ st d v, env sup.idp_link (keyCloakPostBodyEntries sup) =
        .response { status := st, body := some d } →
      isErrorStatus st = false → d.lookup "access_token" = some v →
      (sup.get_subject_token env).1 = .ok v) ∧
    (∀ st d, env sup.idp_link (keyCloakPostBodyEntries sup) =
        .response { status := st, body := some d } →
      isErrorStatus st = false → d.lookup "access_token" = none →
      (sup.get_subject_token env).1 = .error (.keyError "access_token") ∧
      (sup.get_subject_token env).1 ≠ .error .refreshError) := by
  obtain ⟨hstate, hcount⟩ := keycloak_step_state sup env
  refine ⟨hstate, by rw [hstate, hct], by rw [hstate, hte], hcount, ?_, ?_⟩
  · intro st d v henv hst hat
    unfold KeyCloakTokenSupplier.get_subject_token
    rw [henv]
    simp [hst, hat]
  · intro st d henv hst hat
    have h2 : (sup.get_subject_token env).1 = .error (.keyError "access_token") := by
      unfold KeyCloakTokenSupplier.get_subject_token
      rw [henv]
      simp [hst, hat]
    refine ⟨h2, ?_⟩
    intro h
    rw [h2] at h
    exact PyErr.noConfusion (Except.error.inj h)

/-- C10 witness: a freshly constructed supplier receiving a well-status
response whose body lacks access_token raises KeyError while its cached
fields stay None and exactly one POST is made. -/
theorem keycloak_no_caching_witness :
    ((KeyCloakTokenSupplier.make "https://kc" "cid" "sec").get_subject_token
        (fun _ _ => .response { status := 200, body := some [("expires_in", .int 60)] })).2.1.cached_token =
      none ∧
    ((KeyCloakTokenSupplier.make "https://kc" "cid" "sec").get_subject_token
        (fun _ _ => .response { status := 200, body := some [("expires_in", .int 60)] })).2.2 = 1 ∧
    ((KeyCloakTokenSupplier.make "https://kc" "cid" "sec").get_subject_token
        (fun _ _ => .response { status := 200, body := some [("expires_in", .int 60)] })).1 =
      .error (.keyError "access_token") :=
  ⟨(keycloak_no_caching (KeyCloakTokenSupplier.make "https://kc" "cid" "sec")
      (fun _ _ => .response { status := 200, body := some [("expires_in", .int 60)] })
      rfl rfl).2.1,
   (keycloak_no_caching (KeyCloakTokenSupplier.make "https://kc" "cid" "sec")
      (fun _ _ => .response { status := 200, body := some [("expires_in", .int 60)] })
      rfl rfl).2.2.2.1,
   ((keycloak_no_caching (KeyCloakTokenSupplier.make "https://kc" "cid" "sec")
      (fun _ _ => .response { status := 200, body := some [("expires_in", .int 60)] })
      rfl rfl).2.2.2.2.2
      200 [("expires_in", .int 60)] rfl (by decide) (by decide)).1⟩
